import Mathlib

/-!
Verification development for `biotransformers/wrappers/esm_wrappers.py`.

The file is a thin adapter (`ESMWrapper`) around the external ESM library.
We shallowly embed its pure logic: the model-identifier selection in
`__init__`, the vocabulary/token property accessors, the token-processing
loop of `_process_sequences_and_tokens`, and the tensor bookkeeping of
`_model_pass`.  External library objects (the alphabet, the batch converter,
the neural model itself, torch tensors) are embedded as explicit data:
tensors carry their payload, a device tag and a requires-grad flag; Python
dicts become association lists; fallible dict/list subscripts become
`Option`-valued lookups.
-/

/-- Device string constant for `"cpu"`, used by `.to("cpu")` / `.cpu()`. -/
def cpuStr : String := "cpu"

/-- Dict key `"input_ids"`. -/
def inputIdsKey : String := "input_ids"

/-- Dict key `"attention_mask"`. -/
def attentionMaskKey : String := "attention_mask"

/-- Dict key `"token_type_ids"`. -/
def tokenTypeIdsKey : String := "token_type_ids"

/-- Embedding of a torch tensor: a 2-dimensional integer payload together
with the device it lives on and whether it participates in autograd. -/
structure Tensor where
  data : List (List Int)
  device : String
  requiresGrad : Bool
deriving DecidableEq

/-- Embedding of `t.to(device)`: only the device tag changes. -/
def Tensor.to (t : Tensor) (d : String) : Tensor :=
  { t with device := d }

/-- Embedding of `t.detach()`: drops the autograd flag. -/
def Tensor.detach (t : Tensor) : Tensor :=
  { t with requiresGrad := false }

/-- Embedding of `t.cpu()`. -/
def Tensor.cpu (t : Tensor) : Tensor :=
  t.to cpuStr

/-- Embedding of `t.shape` for a 2-dimensional tensor: the number of rows
and the length of the first row (tensors produced by the library are
rectangular). -/
def Tensor.shape (t : Tensor) : Nat × Nat :=
  (t.data.length, (t.data.headD []).length)

/-- Embedding of `1 * (t != v)`: elementwise, 1 where the entry differs
from `v` and 0 where it equals `v`; the comparison result carries no
gradient and stays on the tensor's device. -/
def Tensor.oneMulNe (t : Tensor) (v : Int) : Tensor :=
  { data := t.data.map fun row => row.map fun x => if x = v then 0 else 1,
    device := t.device,
    requiresGrad := false }

/-- Embedding of `torch.zeros(shape)`: a fresh all-zero cpu tensor. -/
def torchZeros (s : Nat × Nat) : Tensor :=
  { data := List.replicate s.1 (List.replicate s.2 0),
    device := cpuStr,
    requiresGrad := false }

/-- Embedding of the ESM alphabet object: the token list `all_toks`, the
token-to-id dict `tok_to_idx` (a Python dict, embedded as an association
list looked up by key), and the distinguished mask/padding indices. -/
structure Alphabet where
  all_toks : List String
  tok_to_idx : List (String × Int)
  mask_idx : Nat
  padding_idx : Nat

/-- Embedding of the dict returned by a forward pass of the ESM model:
the `"logits"` entry and the `"representations"` dict keyed by layer. -/
structure ModelOutput where
  logits : Tensor
  representations : List (Nat × Tensor)

/-- Modelled from the spec: `TransformersModelProperties`, the property
record of the base class `TransformersWrapper` (the base-class module is
part of this repository but not present in the sources); its fields are
those named at the single construction site in `ESMWrapper.model_property`. -/
structure TransformersModelProperties where
  num_sep_tokens : Nat
  begin_token : Bool
  end_token : Bool
deriving DecidableEq

/-- The list `esm_list` of recognized ESM model identifiers (commented-out
entries of the Python source are omitted, as they are in the running code). -/
def esm_list : List String :=
  ["esm1_t34_670M_UR100",
   "esm1_t6_43M_UR50S",
   "esm1b_t33_650M_UR50S"]

/-- The default model identifier `DEFAULT_MODEL`. -/
def DEFAULT_MODEL : String := "esm1_t34_670M_UR100"

/-- The warning printed by `__init__` when `model_dir` is not recognized
(`\x27` is the ASCII apostrophe that the f-string places around the names). -/
def modelDirWarning (model_dir : String) : String :=
  "Model dir \x27" ++ model_dir ++ "\x27 not recognized. " ++
    "Using \x27" ++ DEFAULT_MODEL ++ "\x27 as default"

/-- Embedding of the model-directory selection at the top of
`ESMWrapper.__init__`: if `model_dir` is not in `esm_list` a warning is
printed and `DEFAULT_MODEL` replaces it, otherwise it is kept unchanged.
The first component is the identifier subsequently passed to
`super().__init__` and to `esm.pretrained.load_model_and_alphabet`; the
second component is the list of printed warnings. -/
def selectModelDir (model_dir : String) : String × List String :=
  if model_dir ∉ esm_list then
    (DEFAULT_MODEL, [modelDirWarning model_dir])
  else
    (model_dir, [])

/-- C1: an unrecognized `model_dir` is replaced by `DEFAULT_MODEL`
(which is the string `"esm1_t34_670M_UR100"`) with exactly one printed
warning and no error, while a recognized `model_dir` is used unchanged
with no warning. -/
theorem esm_init_fallback (model_dir : String) :
    DEFAULT_MODEL = "esm1_t34_670M_UR100" ∧
    (model_dir ∉ esm_list →
      selectModelDir model_dir = (DEFAULT_MODEL, [modelDirWarning model_dir])) ∧
    (model_dir ∈ esm_list →
      selectModelDir model_dir = (model_dir, [])) := by
  refine ⟨rfl, fun h => ?_, fun h => ?_⟩
  · simp [selectModelDir, h]
  · simp [selectModelDir, h]

/-- A concrete model directory that is not in `esm_list`. -/
def unknownModelDir : String := "not-a-model"

/-- A concrete model directory that is in `esm_list`. -/
def knownModelDir : String := "esm1b_t33_650M_UR50S"

/-- Witness for C1 at the concrete unrecognized input `unknownModelDir`
and the concrete recognized input `knownModelDir`. -/
theorem esm_init_fallback_witness :
    (unknownModelDir ∉ esm_list ∧
      selectModelDir unknownModelDir =
        (DEFAULT_MODEL, [modelDirWarning unknownModelDir])) ∧
    (knownModelDir ∈ esm_list ∧
      selectModelDir knownModelDir = (knownModelDir, [])) :=
  ⟨⟨by decide, (esm_init_fallback unknownModelDir).2.1 (by decide)⟩,
   ⟨by decide, (esm_init_fallback knownModelDir).2.2 (by decide)⟩⟩

/-- C10: `DEFAULT_MODEL` is itself a member of `esm_list`, so the
identifier `__init__` passes on to the superclass constructor and to the
pretrained-model loader is a member of `esm_list` for every input. -/
theorem default_model_in_esm_list :
    DEFAULT_MODEL ∈ esm_list ∧
    ∀ model_dir : String, (selectModelDir model_dir).1 ∈ esm_list := by
  refine ⟨by decide, fun model_dir => ?_⟩
  by_cases h : model_dir ∈ esm_list
  · simp [selectModelDir, h]
  · simp [selectModelDir, h]
    decide

/-- Embedding of an `ESMWrapper` instance after `__init__` has run: the
fields set by the constructor and the external library objects it loaded
(`alphabet`, `batch_converter`, the neural `model`).  `model_id` and
`vocab_token_list` are attributes provided by the base class
`TransformersWrapper`. -/
structure ESMWrapper where
  model_id : String
  _device : String
  multi_gpu : Bool
  alphabet : Alphabet
  vocab_token_list : Option (List String)
  num_layers : Nat
  hidden_size : Nat
  batch_converter : List (String × String) → Tensor
  model : Tensor → List Nat → ModelOutput

/-- Property `clean_model_id`: `return self.model_id`. -/
def ESMWrapper.clean_model_id (w : ESMWrapper) : String :=
  w.model_id

/-- Property `model_property`: `TransformersModelProperties(num_sep_tokens=1,
begin_token=True, end_token=False)`. -/
def ESMWrapper.model_property (w : ESMWrapper) : TransformersModelProperties :=
  { num_sep_tokens := 1, begin_token := true, end_token := false }

/-- Property `model_vocab_tokens`: `self.vocab_token_list` when it is not
`None`, otherwise `self.alphabet.all_toks`. -/
def ESMWrapper.model_vocab_tokens (w : ESMWrapper) : List String :=
  w.vocab_token_list.getD w.alphabet.all_toks

/-- Property `model_vocabulary`: `list(self.alphabet.tok_to_idx.keys())`. -/
def ESMWrapper.model_vocabulary (w : ESMWrapper) : List String :=
  w.alphabet.tok_to_idx.map Prod.fst

/-- Property `vocab_size`: `len(list(self.alphabet.tok_to_idx.keys()))`. -/
def ESMWrapper.vocab_size (w : ESMWrapper) : Nat :=
  (w.alphabet.tok_to_idx.map Prod.fst).length

/-- Property `token_to_id`: the function `lambda x: self.alphabet.tok_to_idx[x]`.
A Python dict subscript raises `KeyError` on a missing key, embedded here
as the `Option`-valued association-list lookup. -/
def ESMWrapper.token_to_id (w : ESMWrapper) (x : String) : Option Int :=
  w.alphabet.tok_to_idx.lookup x

/-- Embedding of the list comprehension `[token_to_id(tok) for tok in toks]`:
evaluated left to right, failing (raising `KeyError`) at the first token the
lookup does not know. -/
def mapTokenToId (tti : String → Option Int) : List String → Option (List Int)
  | [] => some []
  | t :: ts =>
    match tti t with
    | none => none
    | some i => (mapTokenToId tti ts).map fun r => i :: r

/-- Property `model_vocab_ids`:
`[self.token_to_id(tok) for tok in self.model_vocab_tokens]`. -/
def ESMWrapper.model_vocab_ids (w : ESMWrapper) : Option (List Int) :=
  mapTokenToId w.token_to_id w.model_vocab_tokens

/-- Property `mask_token`: `self.alphabet.all_toks[self.alphabet.mask_idx]`
(a Python list subscript, embedded as an `Option`-valued index). -/
def ESMWrapper.mask_token (w : ESMWrapper) : Option String :=
  w.alphabet.all_toks.get? w.alphabet.mask_idx

/-- Property `pad_token`: `self.alphabet.all_toks[self.alphabet.padding_idx]`. -/
def ESMWrapper.pad_token (w : ESMWrapper) : Option String :=
  w.alphabet.all_toks.get? w.alphabet.padding_idx

/-- Property `begin_token`: the constant `"<cls>"`. -/
def ESMWrapper.begin_token (w : ESMWrapper) : String :=
  "<cls>"

/-- Property `end_token`: the constant empty string. -/
def ESMWrapper.end_token (w : ESMWrapper) : String :=
  ""

/-- Property `embeddings_size`: `return self.hidden_size`. -/
def ESMWrapper.embeddings_size (w : ESMWrapper) : Nat :=
  w.hidden_size

/-- Helper: a successful `mapTokenToId` has the input's length and its
entries are exactly the successful lookups of the input's entries. -/
theorem mapTokenToId_spec (tti : String → Option Int) :
    ∀ (ts : List String) (ids : List Int),
      mapTokenToId tti ts = some ids →
      ids.length = ts.length ∧ ∀ i : Nat, ids.get? i = (ts.get? i).bind tti := by
  intro ts
  induction ts with
  | nil =>
    intro ids h
    simp [mapTokenToId] at h
    subst h
    simp
  | cons t ts ih =>
    intro ids h
    simp only [mapTokenToId] at h
    cases htt : tti t with
    | none => rw [htt] at h; exact absurd h (by simp)
    | some i =>
      rw [htt] at h
      cases hrec : mapTokenToId tti ts with
      | none => rw [hrec] at h; exact absurd h (by simp)
      | some r =>
        rw [hrec] at h
        simp only [Option.map, Option.bind, Option.some.injEq] at h
        subst h
        obtain ⟨hlen, hget⟩ := ih r hrec
        refine ⟨by simp [hlen], fun i => ?_⟩
        cases i with
        | zero => simp [htt]
        | succ n => simpa using hget n

/-- A small concrete alphabet used to exercise the definitions on closed
inputs. -/
def exAlphabet : Alphabet :=
  { all_toks := ["<cls>", "<pad>", "A", "B", "<mask>"],
    tok_to_idx := [("<cls>", 0), ("<pad>", 1), ("A", 2), ("B", 3), ("<mask>", 4)],
    mask_idx := 4,
    padding_idx := 1 }

/-- A small concrete tensor standing for a batch-converter output. -/
def exTensor : Tensor :=
  { data := [[0, 2, 3, 1], [0, 3, 1, 1]], device := cpuStr, requiresGrad := false }

/-- A concrete wrapper instance over `exAlphabet`, with a trivial model and
batch converter, used to exercise the definitions on closed inputs. -/
def exWrapper : ESMWrapper :=
  { model_id := DEFAULT_MODEL,
    _device := cpuStr,
    multi_gpu := false,
    alphabet := exAlphabet,
    vocab_token_list := none,
    num_layers := 2,
    hidden_size := 4,
    batch_converter := fun _ => exTensor,
    model := fun t _ => { logits := t, representations := [(1, t)] } }

/-- C7: the property contract is constant: `model_property` is always
`TransformersModelProperties(num_sep_tokens=1, begin_token=True,
end_token=False)`, `begin_token` is always the string `"<cls>"`,
`end_token` is always the empty string, and `clean_model_id` equals
`model_id`. -/
theorem fixed_property_contract (w : ESMWrapper) :
    w.model_property =
      { num_sep_tokens := 1, begin_token := true, end_token := false } ∧
    w.begin_token = "<cls>" ∧
    w.end_token = "" ∧
    w.clean_model_id = w.model_id :=
  ⟨rfl, rfl, rfl, rfl⟩

/-- C5: `vocab_size` is the length of `model_vocabulary`,
`model_vocabulary` is the key list of the alphabet's `tok_to_idx`, and a
successfully computed `model_vocab_ids` has the same length as
`model_vocab_tokens` with its i-th element equal to `token_to_id` of the
i-th element of `model_vocab_tokens`. -/
theorem vocab_properties (w : ESMWrapper) (ids : List Int)
    (h : w.model_vocab_ids = some ids) :
    w.vocab_size = w.model_vocabulary.length ∧
    w.model_vocabulary = w.alphabet.tok_to_idx.map Prod.fst ∧
    ids.length = w.model_vocab_tokens.length ∧
    ∀ i : Nat, ids.get? i = (w.model_vocab_tokens.get? i).bind w.token_to_id := by
  obtain ⟨hlen, hget⟩ := mapTokenToId_spec w.token_to_id _ ids h
  exact ⟨rfl, rfl, hlen, hget⟩

/-- Witness for C5: on `exWrapper`, `model_vocab_ids` computes to
`[0, 1, 2, 3, 4]`, and the theorem's conclusion holds there. -/
theorem vocab_properties_witness :
    exWrapper.model_vocab_ids = some [0, 1, 2, 3, 4] ∧
    (exWrapper.vocab_size = exWrapper.model_vocabulary.length ∧
     exWrapper.model_vocabulary = exWrapper.alphabet.tok_to_idx.map Prod.fst ∧
     ([0, 1, 2, 3, 4] : List Int).length = exWrapper.model_vocab_tokens.length ∧
     ∀ i : Nat, ([0, 1, 2, 3, 4] : List Int).get? i =
       (exWrapper.model_vocab_tokens.get? i).bind exWrapper.token_to_id) :=
  ⟨by decide, vocab_properties exWrapper [0, 1, 2, 3, 4] (by decide)⟩

/-- C6: `token_to_id` is exactly the lookup in the alphabet's
`tok_to_idx`, and when the alphabet is consistent (`tok_to_idx` maps
`all_toks[i]` to `i` for every valid index `i`), `token_to_id` sends the
mask token to `mask_idx` and the pad token to `padding_idx`. -/
theorem token_to_id_maps_tokens (w : ESMWrapper)
    (hcons : ∀ (i : Nat) (h : i < w.alphabet.all_toks.length),
      w.alphabet.tok_to_idx.lookup (w.alphabet.all_toks.get ⟨i, h⟩) =
        some (i : Int)) :
    (∀ x : String, w.token_to_id x = w.alphabet.tok_to_idx.lookup x) ∧
    (∀ mt : String, w.mask_token = some mt →
      w.token_to_id mt = some (w.alphabet.mask_idx : Int)) ∧
    (∀ pt : String, w.pad_token = some pt →
      w.token_to_id pt = some (w.alphabet.padding_idx : Int)) := by
  refine ⟨fun x => rfl, fun mt hmt => ?_, fun pt hpt => ?_⟩
  · rw [ESMWrapper.mask_token, List.get?_eq_some] at hmt
    obtain ⟨h, hget⟩ := hmt
    have hc := hcons w.alphabet.mask_idx h
    rw [hget] at hc
    exact hc
  · rw [ESMWrapper.pad_token, List.get?_eq_some] at hpt
    obtain ⟨h, hget⟩ := hpt
    have hc := hcons w.alphabet.padding_idx h
    rw [hget] at hc
    exact hc

/-- Witness for C6: `exAlphabet` is consistent, and on `exWrapper` the
conclusions hold. -/
theorem token_to_id_maps_tokens_witness :
    (∀ (i : Nat) (h : i < exWrapper.alphabet.all_toks.length),
      exWrapper.alphabet.tok_to_idx.lookup (exWrapper.alphabet.all_toks.get ⟨i, h⟩) =
        some (i : Int)) ∧
    ((∀ x : String, exWrapper.token_to_id x = exWrapper.alphabet.tok_to_idx.lookup x) ∧
     (∀ mt : String, exWrapper.mask_token = some mt →
       exWrapper.token_to_id mt = some (exWrapper.alphabet.mask_idx : Int)) ∧
     (∀ pt : String, exWrapper.pad_token = some pt →
       exWrapper.token_to_id pt = some (exWrapper.alphabet.padding_idx : Int))) :=
  ⟨by decide, token_to_id_maps_tokens exWrapper (by decide)⟩

/-- The warning printed by `_process_sequences_and_tokens` for a token
outside the model vocabulary (`print` joins its arguments with spaces). -/
def oovWarning (token : String) : String :=
  "Warnings; token " ++ token ++ " does not belong to model vocabulary"

/-- Embedding of the token loop at the top of
`_process_sequences_and_tokens`: tokens not in `vocab` produce a printed
warning, tokens in `vocab` have their id appended to the result.  The
result pairs the collected ids with the collected warnings; `none`
embeds a raised exception from the id lookup. -/
def processTokens (vocab : List String) (tti : String → Option Int) :
    List String → Option (List Int × List String)
  | [] => some ([], [])
  | token :: rest =>
    if token ∉ vocab then
      (processTokens vocab tti rest).map fun p => (p.1, oovWarning token :: p.2)
    else
      match tti token with
      | none => none
      | some i => (processTokens vocab tti rest).map fun p => (i :: p.1, p.2)

/-- Embedding of `ESMWrapper._process_sequences_and_tokens`: run the token
loop, batch-convert the pairs `("", sequence)`, move the token tensor to
cpu, and build the encoded-inputs dict with `input_ids`, `attention_mask`
(1 where the id differs from the pad token's id) and `token_type_ids`
(zeros of the same shape).  `none` embeds a raised exception (a failing
pad-token or id lookup). -/
def ESMWrapper._process_sequences_and_tokens (w : ESMWrapper)
    (sequences_list tokens_list : List String) :
    Option (List (String × Tensor) × Tensor × List Int) := do
  let p ← processTokens w.model_vocabulary w.token_to_id tokens_list
  let all_tokens0 := w.batch_converter (sequences_list.map fun sequence => ("", sequence))
  let all_tokens := all_tokens0.to cpuStr
  let pt ← w.pad_token
  let padId ← w.token_to_id pt
  let encoded_inputs :=
    [(inputIdsKey, all_tokens),
     (attentionMaskKey, all_tokens.oneMulNe padId),
     (tokenTypeIdsKey, torchZeros all_tokens.shape)]
  some (encoded_inputs, all_tokens, p.1)

/-- Embedding of `ESMWrapper._model_pass`: look up `input_ids`, move it to
the wrapper's device, run one forward pass requesting representation layer
`num_layers - 1`, and return the logits and that representation, both
detached and moved to cpu. -/
def ESMWrapper._model_pass (w : ESMWrapper) (model_inputs : List (String × Tensor)) :
    Option (Tensor × Tensor) := do
  let last_layer := w.num_layers - 1
  let inp ← model_inputs.lookup inputIdsKey
  let model_outputs := w.model (inp.to w._device) [last_layer]
  let r ← model_outputs.representations.lookup last_layer
  some (model_outputs.logits.detach.cpu, r.detach.cpu)

/-- Helper: a key that occurs in the key list of an association list has a
successful lookup. -/
theorem lookup_isSome_of_mem_keys (l : List (String × Int)) (t : String)
    (h : t ∈ l.map Prod.fst) : ∃ i : Int, l.lookup t = some i := by
  induction l with
  | nil => simp at h
  | cons p l ih =>
    obtain ⟨k, b⟩ := p
    rw [List.lookup_cons]
    by_cases he : t = k
    · simp [he]
    · have hb : (t == k) = false := beq_false_of_ne he
      rw [hb]
      refine ih ?_
      simp only [List.map_cons, List.mem_cons] at h
      exact h.resolve_left he

/-- Helper: over a vocabulary that is exactly the key list of `l` and the
lookup of `l` as the id map, the token loop never fails, keeps (in order)
the ids of the tokens in the vocabulary, and warns exactly about the
tokens outside it. -/
theorem processTokens_lookup (l : List (String × Int)) (ts : List String) :
    processTokens (l.map Prod.fst) (fun x => l.lookup x) ts =
      some (((ts.filter fun t => decide (t ∈ l.map Prod.fst)).map
              fun t => (l.lookup t).getD 0),
            ((ts.filter fun t => decide (t ∉ l.map Prod.fst)).map oovWarning)) := by
  induction ts with
  | nil => simp [processTokens]
  | cons t ts ih =>
    by_cases hm : t ∈ l.map Prod.fst
    · obtain ⟨i, hi⟩ := lookup_isSome_of_mem_keys l t hm
      simp [processTokens, hm, hi, ih]
    · simp [processTokens, hm, ih]

/-- C4: the token loop of `_process_sequences_and_tokens` prints one
warning for exactly each token outside `model_vocabulary` (tokens in the
vocabulary produce none) and never raises: its result is always `some`. -/
theorem oov_tokens_warned (w : ESMWrapper) (tokens_list : List String) :
    ∃ ids : List Int,
      processTokens w.model_vocabulary w.token_to_id tokens_list =
        some (ids,
          (tokens_list.filter fun t => decide (t ∉ w.model_vocabulary)).map
            oovWarning) :=
  ⟨_, processTokens_lookup w.alphabet.tok_to_idx tokens_list⟩

/-- Helper: the result of `_process_sequences_and_tokens`, when it
succeeds, is determined: the token tensor is the cpu-moved batch-converter
output, the dict is the literal three-entry dict over it, and the id list
is the one computed by the token loop over the vocabulary lookups. -/
theorem process_sequences_and_tokens_eq (w : ESMWrapper)
    (sequences_list tokens_list : List String)
    (enc : List (String × Tensor)) (allTok : Tensor) (ids : List Int)
    (h : w._process_sequences_and_tokens sequences_list tokens_list =
      some (enc, allTok, ids)) :
    ∃ padId : Int,
      w.pad_token.bind w.token_to_id = some padId ∧
      allTok = (w.batch_converter
        (sequences_list.map fun sequence => ("", sequence))).to cpuStr ∧
      enc = [(inputIdsKey, allTok),
             (attentionMaskKey, allTok.oneMulNe padId),
             (tokenTypeIdsKey, torchZeros allTok.shape)] ∧
      ids = (tokens_list.filter fun t =>
              decide (t ∈ w.model_vocabulary)).map
            fun t => (w.token_to_id t).getD 0 := by
  have hp : processTokens w.model_vocabulary w.token_to_id tokens_list =
      some (((tokens_list.filter fun t => decide (t ∈ w.model_vocabulary)).map
              fun t => (w.token_to_id t).getD 0),
            ((tokens_list.filter fun t => decide (t ∉ w.model_vocabulary)).map
              oovWarning)) :=
    processTokens_lookup w.alphabet.tok_to_idx tokens_list
  rw [ESMWrapper._process_sequences_and_tokens, hp] at h
  cases hpt : w.pad_token with
  | none =>
    rw [hpt] at h
    simp at h
  | some pt =>
    rw [hpt] at h
    simp only [Option.bind_eq_bind, Option.some_bind] at h
    cases hid : w.token_to_id pt with
    | none =>
      rw [hid] at h
      simp at h
    | some padId =>
      rw [hid] at h
      simp only [Option.some_bind, Option.some.injEq, Prod.mk.injEq] at h
      obtain ⟨henc, hall, hids⟩ := h
      refine ⟨padId, by simp [hpt, hid], hall.symm, ?_, hids.symm⟩
      rw [← henc, ← hall]

/-- C8: the id list returned by `_process_sequences_and_tokens` is the
order-preserving image under `token_to_id` of the sub-list of
`tokens_list` whose elements are in `model_vocabulary`; out-of-vocabulary
tokens are dropped, so its length is at most that of `tokens_list`, with
equality exactly when every token is in the vocabulary. -/
theorem oov_tokens_dropped (w : ESMWrapper)
    (sequences_list tokens_list : List String)
    (enc : List (String × Tensor)) (allTok : Tensor) (ids : List Int)
    (h : w._process_sequences_and_tokens sequences_list tokens_list =
      some (enc, allTok, ids)) :
    ids.map some =
      (tokens_list.filter fun t => decide (t ∈ w.model_vocabulary)).map
        w.token_to_id ∧
    ids.length ≤ tokens_list.length ∧
    (ids.length = tokens_list.length ↔
      ∀ t ∈ tokens_list, t ∈ w.model_vocabulary) := by
  obtain ⟨padId, -, -, -, hids⟩ :=
    process_sequences_and_tokens_eq w sequences_list tokens_list enc allTok ids h
  subst hids
  refine ⟨?_, ?_, ?_⟩
  · rw [List.map_map]
    refine List.map_congr_left fun t ht => ?_
    have hmem : t ∈ w.model_vocabulary := by
      have := (List.mem_filter.mp ht).2
      simpa using this
    obtain ⟨i, hi⟩ :=
      lookup_isSome_of_mem_keys w.alphabet.tok_to_idx t hmem
    have hi' : w.token_to_id t = some i := hi
    simp [Function.comp, hi']
  · rw [List.length_map]
    exact List.length_filter_le _ _
  · rw [List.length_map, List.filter_length_eq_length]
    simp

/-- The pad token of `exAlphabet`. -/
def exPadToken : String := "<pad>"

/-- Witness for C8: on `exWrapper`, processing the token list
`["A", "Z", "B"]` (where `"Z"` is out of vocabulary) succeeds and
returns the id list `[2, 3]`, and the theorem's conclusion holds there. -/
theorem oov_tokens_dropped_witness :
    exWrapper._process_sequences_and_tokens ["AB"] ["A", "Z", "B"] =
      some ([(inputIdsKey, exTensor),
             (attentionMaskKey, Tensor.oneMulNe exTensor 1),
             (tokenTypeIdsKey, torchZeros exTensor.shape)],
            exTensor, [2, 3]) ∧
    (([2, 3] : List Int).map some =
       ((["A", "Z", "B"] : List String).filter fun t =>
         decide (t ∈ exWrapper.model_vocabulary)).map exWrapper.token_to_id ∧
     ([2, 3] : List Int).length ≤ (["A", "Z", "B"] : List String).length ∧
     (([2, 3] : List Int).length = (["A", "Z", "B"] : List String).length ↔
       ∀ t ∈ (["A", "Z", "B"] : List String), t ∈ exWrapper.model_vocabulary)) :=
  ⟨by decide,
   oov_tokens_dropped exWrapper ["AB"] ["A", "Z", "B"]
     [(inputIdsKey, exTensor),
      (attentionMaskKey, Tensor.oneMulNe exTensor 1),
      (tokenTypeIdsKey, torchZeros exTensor.shape)]
     exTensor [2, 3] (by decide)⟩

/-- C3: when the pad-token lookups succeed, `_process_sequences_and_tokens`
returns an encoded-inputs dict whose keys are exactly `input_ids`,
`attention_mask` and `token_type_ids`, whose `input_ids` entry is the
batch converter's token tensor for the pairs `("", sequence)` in order,
moved to cpu, and that tensor is also the second component of the
returned triple. -/
theorem process_encoded_inputs_keys (w : ESMWrapper)
    (sequences_list tokens_list : List String) (pt : String) (padId : Int)
    (hpt : w.pad_token = some pt) (hid : w.token_to_id pt = some padId) :
    ∃ enc ids,
      w._process_sequences_and_tokens sequences_list tokens_list =
        some (enc,
          (w.batch_converter
            (sequences_list.map fun sequence => ("", sequence))).to cpuStr,
          ids) ∧
      enc.map Prod.fst = [inputIdsKey, attentionMaskKey, tokenTypeIdsKey] ∧
      enc.lookup inputIdsKey =
        some ((w.batch_converter
          (sequences_list.map fun sequence => ("", sequence))).to cpuStr) := by
  have hp : processTokens w.model_vocabulary w.token_to_id tokens_list =
      some (((tokens_list.filter fun t => decide (t ∈ w.model_vocabulary)).map
              fun t => (w.token_to_id t).getD 0),
            ((tokens_list.filter fun t => decide (t ∉ w.model_vocabulary)).map
              oovWarning)) :=
    processTokens_lookup w.alphabet.tok_to_idx tokens_list
  refine
    ⟨[(inputIdsKey,
        (w.batch_converter
          (sequences_list.map fun sequence => ("", sequence))).to cpuStr),
      (attentionMaskKey,
        ((w.batch_converter
          (sequences_list.map fun sequence => ("", sequence))).to cpuStr).oneMulNe
            padId),
      (tokenTypeIdsKey,
        torchZeros ((w.batch_converter
          (sequences_list.map fun sequence => ("", sequence))).to cpuStr).shape)],
     (tokens_list.filter fun t => decide (t ∈ w.model_vocabulary)).map
       fun t => (w.token_to_id t).getD 0,
     ?_, rfl, ?_⟩
  · rw [ESMWrapper._process_sequences_and_tokens, hp, hpt]
    simp only [Option.bind_eq_bind, Option.some_bind]
    rw [hid]
    rfl
  · rfl

/-- Witness for C3 at `exWrapper` with sequences `["AB"]` and tokens
`["A"]`. -/
theorem process_encoded_inputs_keys_witness :
    exWrapper.pad_token = some exPadToken ∧
    exWrapper.token_to_id exPadToken = some 1 ∧
    (∃ enc ids,
      exWrapper._process_sequences_and_tokens ["AB"] ["A"] =
        some (enc,
          (exWrapper.batch_converter
            ((["AB"] : List String).map fun sequence => ("", sequence))).to cpuStr,
          ids) ∧
      enc.map Prod.fst = [inputIdsKey, attentionMaskKey, tokenTypeIdsKey] ∧
      enc.lookup inputIdsKey =
        some ((exWrapper.batch_converter
          ((["AB"] : List String).map fun sequence => ("", sequence))).to cpuStr)) :=
  ⟨by decide, by decide,
   process_encoded_inputs_keys exWrapper ["AB"] ["A"] exPadToken 1
     (by decide) (by decide)⟩

/-- Helper: `torchZeros` applied to a tensor's shape yields a tensor of
that same shape. -/
theorem torchZeros_shape (t : Tensor) : (torchZeros t.shape).shape = t.shape := by
  cases hd : t.data with
  | nil => simp [Tensor.shape, torchZeros, hd]
  | cons r rs => simp [Tensor.shape, torchZeros, hd, List.replicate_succ]

/-- Helper: every entry of a `torchZeros` tensor is zero. -/
theorem torchZeros_data_zero (s : Nat × Nat) :
    ∀ row ∈ (torchZeros s).data, ∀ x ∈ row, x = 0 := by
  intro row hrow x hx
  have hr := List.eq_of_mem_replicate hrow
  subst hr
  exact List.eq_of_mem_replicate hx

/-- Helper: the `(i, j)` entry of `oneMulNe t v` is 0 when the `(i, j)`
entry of `t` equals `v` and 1 when it differs. -/
theorem oneMulNe_get (t : Tensor) (v : Int) (i j : Nat) (x : Int)
    (h : (t.data.get? i).bind (fun row => row.get? j) = some x) :
    ((t.oneMulNe v).data.get? i).bind (fun row => row.get? j) =
      some (if x = v then 0 else 1) := by
  simp only [Tensor.oneMulNe]
  cases hri : t.data.get? i with
  | none => rw [hri] at h; simp at h
  | some row =>
    rw [hri] at h
    simp only [Option.some_bind] at h
    rw [List.get?_map, hri]
    show (row.map fun y => if y = v then 0 else 1).get? j =
      some (if x = v then 0 else 1)
    rw [List.get?_map, h]
    rfl

/-- C9: in the encoded inputs, `attention_mask` is the elementwise
indicator that `input_ids` differs from the pad token's id (1 where it
differs, 0 where it is equal, entry by entry), and `token_type_ids` is an
all-zero tensor of the same shape as `input_ids`. -/
theorem attention_mask_and_token_type_ids (w : ESMWrapper)
    (sequences_list tokens_list : List String) (pt : String) (padId : Int)
    (hpt : w.pad_token = some pt) (hid : w.token_to_id pt = some padId) :
    ∃ enc allTok ids,
      w._process_sequences_and_tokens sequences_list tokens_list =
        some (enc, allTok, ids) ∧
      enc.lookup attentionMaskKey = some (allTok.oneMulNe padId) ∧
      (allTok.oneMulNe padId).data =
        allTok.data.map (fun row => row.map fun x => if x = padId then 0 else 1) ∧
      (∀ (i j : Nat) (x : Int),
        (allTok.data.get? i).bind (fun row => row.get? j) = some x →
        ((allTok.oneMulNe padId).data.get? i).bind (fun row => row.get? j) =
          some (if x = padId then 0 else 1)) ∧
      enc.lookup tokenTypeIdsKey = some (torchZeros allTok.shape) ∧
      (∀ row ∈ (torchZeros allTok.shape).data, ∀ x ∈ row, x = 0) ∧
      (torchZeros allTok.shape).shape = allTok.shape := by
  have hp : processTokens w.model_vocabulary w.token_to_id tokens_list =
      some (((tokens_list.filter fun t => decide (t ∈ w.model_vocabulary)).map
              fun t => (w.token_to_id t).getD 0),
            ((tokens_list.filter fun t => decide (t ∉ w.model_vocabulary)).map
              oovWarning)) :=
    processTokens_lookup w.alphabet.tok_to_idx tokens_list
  refine
    ⟨[(inputIdsKey,
        (w.batch_converter
          (sequences_list.map fun sequence => ("", sequence))).to cpuStr),
      (attentionMaskKey,
        ((w.batch_converter
          (sequences_list.map fun sequence => ("", sequence))).to cpuStr).oneMulNe
            padId),
      (tokenTypeIdsKey,
        torchZeros ((w.batch_converter
          (sequences_list.map fun sequence => ("", sequence))).to cpuStr).shape)],
     (w.batch_converter
       (sequences_list.map fun sequence => ("", sequence))).to cpuStr,
     (tokens_list.filter fun t => decide (t ∈ w.model_vocabulary)).map
       fun t => (w.token_to_id t).getD 0,
     ?_, rfl, rfl, ?_, rfl, ?_, ?_⟩
  · rw [ESMWrapper._process_sequences_and_tokens, hp, hpt]
    simp only [Option.bind_eq_bind, Option.some_bind]
    rw [hid]
    rfl
  · intro i j x hx
    exact oneMulNe_get _ padId i j x hx
  · exact torchZeros_data_zero _
  · exact torchZeros_shape _

/-- Witness for C9 at `exWrapper` with sequences `["AB"]`, tokens `["A"]`,
pad token `"<pad>"` and pad id 1. -/
theorem attention_mask_and_token_type_ids_witness :
    exWrapper.pad_token = some exPadToken ∧
    exWrapper.token_to_id exPadToken = some 1 ∧
    (∃ enc allTok ids,
      exWrapper._process_sequences_and_tokens ["AB"] ["A"] =
        some (enc, allTok, ids) ∧
      enc.lookup attentionMaskKey = some (allTok.oneMulNe 1) ∧
      (allTok.oneMulNe 1).data =
        allTok.data.map (fun row => row.map fun x => if x = 1 then 0 else 1) ∧
      (∀ (i j : Nat) (x : Int),
        (allTok.data.get? i).bind (fun row => row.get? j) = some x →
        ((allTok.oneMulNe 1).data.get? i).bind (fun row => row.get? j) =
          some (if x = 1 then 0 else 1)) ∧
      enc.lookup tokenTypeIdsKey = some (torchZeros allTok.shape) ∧
      (∀ row ∈ (torchZeros allTok.shape).data, ∀ x ∈ row, x = 0) ∧
      (torchZeros allTok.shape).shape = allTok.shape) :=
  ⟨by decide, by decide,
   attention_mask_and_token_type_ids exWrapper ["AB"] ["A"] exPadToken 1
     (by decide) (by decide)⟩

/-- C2: when the input dict contains an `input_ids` tensor, `_model_pass`
returns the pair of the logits and the layer-`num_layers - 1`
representation of a single forward pass of the model on that tensor
(moved to the wrapper's device), both detached and moved to cpu. -/
theorem model_pass_forward (w : ESMWrapper) (model_inputs : List (String × Tensor))
    (inp r : Tensor)
    (hinp : model_inputs.lookup inputIdsKey = some inp)
    (hr : (w.model (inp.to w._device) [w.num_layers - 1]).representations.lookup
        (w.num_layers - 1) = some r) :
    w._model_pass model_inputs =
      some ((w.model (inp.to w._device) [w.num_layers - 1]).logits.detach.cpu,
        r.detach.cpu) ∧
    ((w.model (inp.to w._device) [w.num_layers - 1]).logits.detach.cpu).data =
      (w.model (inp.to w._device) [w.num_layers - 1]).logits.data ∧
    ((w.model (inp.to w._device) [w.num_layers - 1]).logits.detach.cpu).requiresGrad =
      false ∧
    ((w.model (inp.to w._device) [w.num_layers - 1]).logits.detach.cpu).device =
      cpuStr ∧
    (r.detach.cpu).data = r.data ∧
    (r.detach.cpu).requiresGrad = false ∧
    (r.detach.cpu).device = cpuStr := by
  refine ⟨?_, rfl, rfl, rfl, rfl, rfl, rfl⟩
  rw [ESMWrapper._model_pass, hinp]
  simp only [Option.bind_eq_bind, Option.some_bind]
  rw [hr]
  rfl

/-- Witness for C2: a concrete input dict containing `input_ids`, run
through `exWrapper`. -/
theorem model_pass_forward_witness :
    ([(inputIdsKey, exTensor)].lookup inputIdsKey = some exTensor) ∧
    ((exWrapper.model (exTensor.to exWrapper._device)
        [exWrapper.num_layers - 1]).representations.lookup
      (exWrapper.num_layers - 1) = some (exTensor.to exWrapper._device)) ∧
    exWrapper._model_pass [(inputIdsKey, exTensor)] =
      some ((exWrapper.model (exTensor.to exWrapper._device)
          [exWrapper.num_layers - 1]).logits.detach.cpu,
        (exTensor.to exWrapper._device).detach.cpu) :=
  ⟨by decide, by decide,
   (model_pass_forward exWrapper [(inputIdsKey, exTensor)] exTensor
     (exTensor.to exWrapper._device) (by decide) (by decide)).1⟩
